import Mathlib

/-!
Shallow embedding of `src/routes/_main/activity.tsx` (Esmaay/atlas-web):
the activity-log page's pure logic — relative-time formatting, trigger-reason
formatting, the per-activity presenter (`getActivityDetails`), the backup
filter and the pagination flags.  JavaScript's loosely typed metadata values
are modelled by `JSVal`; JavaScript numbers that can be `NaN` are modelled by
`JSNum`.  Only integer-valued numbers occur in the claims, so `JSNum` carries
`Int` (the page never produces fractional values from integer inputs).
-/

namespace AtlasWeb

/-- Model of a JavaScript value stored in an activity's loosely typed
`metadata` record.  The first constructor models an absent field. -/
inductive JSVal where
  | undefined : JSVal
  | null : JSVal
  | nan : JSVal
  | num : Int → JSVal
  | str : String → JSVal
  | bool : Bool → JSVal
deriving DecidableEq

/-- Model of a JavaScript number: an integer or NaN. -/
inductive JSNum where
  | int : Int → JSNum
  | nan : JSNum
deriving DecidableEq

/-- JavaScript truthiness of a value. -/
def JSVal.truthy : JSVal → Bool
  | .undefined => false
  | .null => false
  | .nan => false
  | .num n => n != 0
  | .str s => s != ""
  | .bool b => b

/-- JavaScript `a || b`. -/
def jsOr (a b : JSVal) : JSVal := if a.truthy then a else b

/-- JavaScript ToNumber on a string (integer fragment: trimmed empty string
is 0, optional sign followed by digits parses, anything else is NaN). -/
def parseJSNumber (s : String) : JSNum :=
  let t := s.trim.data
  if t = [] then .int 0
  else
    let (sgn, digits) :=
      match t with
      | '+' :: rest => ((1 : Int), rest)
      | '-' :: rest => ((-1 : Int), rest)
      | rest => ((1 : Int), rest)
    if digits ≠ [] ∧ digits.all Char.isDigit then
      .int (sgn * (digits.foldl (fun acc c => acc * 10 + (c.toNat - 48)) 0 : Nat))
    else .nan

/-- JavaScript ToNumber coercion. -/
def JSVal.toNumber : JSVal → JSNum
  | .undefined => .nan
  | .null => .int 0
  | .nan => .nan
  | .num n => .int n
  | .str s => parseJSNumber s
  | .bool b => .int (if b then 1 else 0)

/-- JavaScript subtraction of two values (`a - b` with ToNumber coercion). -/
def jsSub (a b : JSVal) : JSNum :=
  match a.toNumber, b.toNumber with
  | .int x, .int y => .int (x - y)
  | _, _ => .nan

/-- JavaScript `Math.abs` on a number. -/
def JSNum.abs : JSNum → JSNum
  | .int n => .int (Int.ofNat n.natAbs)
  | .nan => .nan

/-- Template-literal coercion of a number to a string. -/
def JSNum.toJSString : JSNum → String
  | .int n => toString n
  | .nan => "NaN"

/-- Template-literal coercion of a value to a string. -/
def JSVal.toJSString : JSVal → String
  | .undefined => "undefined"
  | .null => "null"
  | .nan => "NaN"
  | .num n => toString n
  | .str s => s
  | .bool b => if b then "true" else "false"

/-- The metadata fields the activity page reads, each a loosely typed
JavaScript value; an absent field is `JSVal.undefined` (models `metadata` being
a `Record<string, any>`). -/
structure Metadata where
  servers_before : JSVal := .undefined
  servers_after : JSVal := .undefined
  direction : JSVal := .undefined
  trigger_reason : JSVal := .undefined
  previousPlayerCount : JSVal := .undefined
  newPlayerCount : JSVal := .undefined
  timeWindow : JSVal := .undefined
  capacity : JSVal := .undefined
  reason : JSVal := .undefined
  previousUptime : JSVal := .undefined
deriving DecidableEq

/-- One activity record as consumed by the page. -/
structure Activity where
  id : String
  activityType : String
  metadata : Option Metadata
  timestamp : String
  groupName : Option String
  triggeredBy : String
  description : String
deriving DecidableEq

/-- Result of `getActivityDetails`: the line at source line 85 returns no
`badge` field at all (`none`); the other branches return a string badge. -/
structure ActivityDetails where
  summary : String
  details : String
  badge : Option String := none
deriving DecidableEq

/-- The argument `new Date(...)` receives in `formatTimeAgo` (source lines
54-56): the timestamp, with "Z" appended when `timestamp.includes("Z")` is
false; `includes` with the one-character needle "Z" is membership of the
character among the timestamp's characters. -/
def formatTimeAgoInput (timestamp : String) : String :=
  timestamp ++ (if timestamp.data.contains 'Z' then "" else "Z")

/-- The tail of `formatTimeAgo` (source lines 57-67), as a function of the
elapsed milliseconds `diffMs = now - activityTime`; `Math.floor` of a real
quotient of integers is `Int.fdiv`. -/
def formatTimeAgoOfDiff (diffMs : Int) : String :=
  let diffMinutes := Int.fdiv diffMs (1000 * 60)
  if diffMinutes < 1 then "now"
  else if diffMinutes < 60 then toString diffMinutes ++ "m"
  else
    let diffHours := Int.fdiv diffMinutes 60
    if diffHours < 24 then toString diffHours ++ "h"
    else
      let diffDays := Int.fdiv diffHours 24
      toString diffDays ++ "d"

/-- The regex `\w` character class (ASCII letters, digits, underscore). -/
def isWordChar (c : Char) : Bool := c.isAlphanum || c = '_'

/-- JavaScript `reason.replace(/_/g, " ")`: every underscore becomes a
space. -/
def underscoresToSpaces (s : String) : String :=
  (s.data.map (fun c => if c = '_' then ' ' else c)).asString

/-- JavaScript `formatted.replace(/\b\w/g, l => l.toUpperCase())` on a list
of characters: a word character whose predecessor is not a word character
(`prevIsWord = false`) is uppercased. -/
def capitalizeWordsAux : Bool → List Char → List Char
  | _, [] => []
  | prevIsWord, c :: cs =>
    (if !prevIsWord && isWordChar c then c.toUpper else c) ::
      capitalizeWordsAux (isWordChar c) cs

/-- Capitalize the first letter of every word (regex `\b\w` replacement). -/
def capitalizeWords (s : String) : String :=
  (capitalizeWordsAux false s.data).asString

/-- JavaScript `s.replace(pat, repl)` with a string pattern: only the first
occurrence is replaced; an empty pattern matches at the start. -/
def replaceFirstAux (pat repl : List Char) : List Char → List Char
  | [] => []
  | c :: cs =>
    if pat.isPrefixOf (c :: cs) then repl ++ (c :: cs).drop pat.length
    else c :: replaceFirstAux pat repl cs

/-- String-level wrapper for `replaceFirstAux`. -/
def replaceFirst (s pat repl : String) : String :=
  if pat = "" then repl ++ s
  else (replaceFirstAux pat.data repl.data s.data).asString

/-- `formatTriggerReason` (source lines 70-82). -/
def formatTriggerReason (reason : String) : String :=
  if reason = "" then ""
  else
    let formatted := capitalizeWords (underscoresToSpaces reason)
    replaceFirst (replaceFirst (replaceFirst (replaceFirst formatted
      "Minimum Servers Enforcement" "Maintaining minimum servers")
      "Maximum Servers Enforcement" "Maintaining maximum servers")
      "Scale Up Threshold" "High utilization")
      "Scale Down Threshold" "Low utilization"

/-- The call `formatTriggerReason(metadata.trigger_reason)` on a loosely
typed value: a falsy value returns "" at the guard; a truthy string is
formatted; a truthy non-string throws (`reason.replace` is not a
function). -/
def formatTriggerReasonJS (reason : JSVal) : Except String String :=
  if !reason.truthy then .ok ""
  else
    match reason with
    | .str s => .ok (formatTriggerReason s)
    | _ => .error "TypeError: reason.replace is not a function"

/-- Body of the `try` block of `getActivityDetails` (source lines 87-141),
keyed on the activity type with the metadata in scope; the only throwing
operation is the `formatTriggerReason` call in the scaling branch. -/
def getActivityDetailsBody (ty : String) (metadata : Metadata) :
    Except String ActivityDetails :=
  if ty = "SCALING_OPERATION" then
    let beforeCount := jsOr metadata.servers_before (.num 0)
    let afterCount := jsOr metadata.servers_after (.num 0)
    let diff := jsSub afterCount beforeCount
    let direction := if metadata.direction = .str "up" then "+" else "-"
    match formatTriggerReasonJS metadata.trigger_reason with
    | .error e => .error e
    | .ok reasonStr =>
      .ok { summary := beforeCount.toJSString ++ " → " ++
              afterCount.toJSString ++ " servers",
            details := if reasonStr = "" then "Auto-scaling triggered"
              else reasonStr,
            badge := some (direction ++ diff.abs.toJSString) }
  else if ty = "PLAYER_SURGE" then
    let playerDiff := jsSub metadata.newPlayerCount metadata.previousPlayerCount
    .ok { summary := metadata.previousPlayerCount.toJSString ++ " → " ++
            metadata.newPlayerCount.toJSString ++ " players",
          details := "Surge detected in " ++
            (jsOr metadata.timeWindow (.str "5m")).toJSString,
          badge := some ("+" ++ playerDiff.toJSString) }
  else if ty = "PLAYER_DROP" then
    let dropDiff := jsSub metadata.previousPlayerCount metadata.newPlayerCount
    .ok { summary := metadata.previousPlayerCount.toJSString ++ " → " ++
            metadata.newPlayerCount.toJSString ++ " players",
          details := "Drop detected in " ++
            (jsOr metadata.timeWindow (.str "5m")).toJSString,
          badge := some ("-" ++ dropDiff.toJSString) }
  else if ty = "CAPACITY_REACHED" then
    .ok { summary := metadata.newPlayerCount.toJSString ++ "/" ++
            metadata.capacity.toJSString ++ " players",
          details := "Server at maximum capacity",
          badge := some "FULL" }
  else if ty = "SERVER_RESTART" then
    .ok { summary := (jsOr metadata.reason (.str "Manual restart")).toJSString,
          details := if metadata.previousUptime.truthy then
              "Uptime: " ++ metadata.previousUptime.toJSString
            else "",
          badge := some "RESTART" }
  else if ty = "ATLAS_LIFECYCLE" then
    .ok { summary := "System event",
          details := "Atlas lifecycle change",
          badge := some "SYSTEM" }
  else
    .ok { summary := "", details := "", badge := some "" }

/-- `getActivityDetails` (source lines 84-145): missing metadata returns a
badgeless empty record; a caught exception returns all-empty fields. -/
def getActivityDetails (activity : Activity) : ActivityDetails :=
  match activity.metadata with
  | none => { summary := "", details := "", badge := none }
  | some metadata =>
    match getActivityDetailsBody activity.activityType metadata with
    | .ok d => d
    | .error _ => { summary := "", details := "", badge := some "" }

/-- Page size (source line 147). -/
def ITEMS_PER_PAGE : Nat := 20

/-- The `activities` binding (source lines 165-167): the fetched page with
backup operations filtered out. -/
def filteredActivities (data : List Activity) : List Activity :=
  data.filter (fun a => a.activityType != "BACKUP_OPERATION")

/-- `hasNextPage` (source line 177): computed from the filtered list. -/
def hasNextPage (data : List Activity) : Bool :=
  (filteredActivities data).length == ITEMS_PER_PAGE

/-- `hasPrevPage` (source line 178). -/
def hasPrevPage (currentPage : Nat) : Bool := currentPage > 1

/-- The three mutually exclusive rendering states of the card body (source
lines 216-227). -/
inductive RenderState where
  | loading : RenderState
  | emptyMessage : RenderState
  | rows : RenderState
deriving DecidableEq

/-- Which body the card renders (source lines 216-227). -/
def renderState (isPending : Bool) (activities : List Activity) : RenderState :=
  if isPending then .loading
  else if activities.length == 0 then .emptyMessage
  else .rows

/-- Whether the pagination controls are rendered (source line 322:
`!isPending && activities.length > 0`). -/
def showsPaginationControls (isPending : Bool) (activities : List Activity) :
    Bool :=
  !isPending && decide (0 < activities.length)

/-- Modelled from the spec: a timestamp "carrying its own explicit
time-zone information" — it contains the UTC marker "Z" or it ends in a
numeric offset `±hh:mm`.  Used only to state claim C3, which speaks of
explicit time-zone information rather than of the character test the code
performs. -/
def specCarriesExplicitTimezone (t : String) : Bool :=
  t.data.contains 'Z' ||
    (match t.data.drop (t.data.length - 6) with
     | [sgn, d1, d2, colon, d3, d4] =>
       (sgn = '+' || sgn = '-') && d1.isDigit && d2.isDigit &&
         colon = ':' && d3.isDigit && d4.isDigit
     | _ => false)

/-- Fixture: an activity with the given type and metadata and fixed display
fields. -/
def mkActivity (ty : String) (md : Option Metadata) : Activity :=
  { id := "a1", activityType := ty, metadata := md,
    timestamp := "2025-06-01T12:00:00Z", groupName := none,
    triggeredBy := "system", description := "desc" }

/-- Fixture for C1: a page of 20 records as returned by the API, one of
which is a backup operation. -/
def backupPage : List Activity :=
  List.replicate 19 (mkActivity "SERVER_RESTART" none) ++
    [mkActivity "BACKUP_OPERATION" none]

/-- Fixture for the C1 witness: a page of 20 records with no backup
operation. -/
def fullPage : List Activity :=
  List.replicate 20 (mkActivity "SERVER_RESTART" none)

/-- Fixture for C2: a player-surge activity whose metadata is present but
carries none of the player-count fields. -/
def surgeNoCounts : Activity := mkActivity "PLAYER_SURGE" (some {})

/-- Fixture for C7: a scaling activity whose `trigger_reason` is a truthy
non-string, so `reason.replace` throws inside the `try` block. -/
def throwingScaling : Activity :=
  mkActivity "SCALING_OPERATION" (some { trigger_reason := .num 42 })

/-- Printing an integer obtained from a natural number prints the natural
number. -/
theorem toString_natCast (n : Nat) : toString ((n : Int)) = toString n := rfl

/-- Floor division of `1000 * s` milliseconds by one minute of
milliseconds is `s / 60` for natural `s`. -/
theorem fdiv_ms_minute (s : Nat) :
    Int.fdiv (1000 * (s : Int)) (1000 * 60) = ((s / 60 : Nat) : Int) := by
  rw [Int.fdiv_eq_ediv _ (by norm_num)]
  omega

/-- Floor division of the minute count by 60 gives `s / 3600`. -/
theorem fdiv_minute_hour (s : Nat) :
    Int.fdiv ((s / 60 : Nat) : Int) 60 = ((s / 3600 : Nat) : Int) := by
  rw [Int.fdiv_eq_ediv _ (by norm_num)]
  omega

/-- Floor division of the hour count by 24 gives `s / 86400`. -/
theorem fdiv_hour_day (s : Nat) :
    Int.fdiv ((s / 3600 : Nat) : Int) 24 = ((s / 86400 : Nat) : Int) := by
  rw [Int.fdiv_eq_ediv _ (by norm_num)]
  omega

/-- The `||`-fallback on a numeric server count is the identity (a
JavaScript `0` is falsy, but then the fallback is `0` as well). -/
theorem jsOr_num_zero (b : Int) : jsOr (JSVal.num b) (JSVal.num 0) = JSVal.num b := by
  by_cases hb : b = 0
  · simp [jsOr, JSVal.truthy, hb]
  · simp [jsOr, JSVal.truthy, hb]

/-- Calling the trigger-reason formatter on a string value never throws and
agrees with the string-level formatter. -/
theorem formatTriggerReasonJS_str (tr : String) :
    formatTriggerReasonJS (JSVal.str tr) = .ok (formatTriggerReason tr) := by
  by_cases h : tr = ""
  · subst h
    simp [formatTriggerReasonJS, JSVal.truthy, formatTriggerReason]
  · simp [formatTriggerReasonJS, JSVal.truthy, h]

/-- A nonempty string has nonempty character data. -/
theorem str_ne_empty_iff_data (s : String) : s ≠ "" ↔ s.data ≠ [] := by
  constructor
  · intro h h2
    exact h (String.ext (by simpa using h2))
  · intro h h2
    apply h
    rw [h2]

/-- C1 — counterexample: a fetched page of exactly 20 entries containing a
backup operation has `hasNextPage = false`, refuting that `hasNextPage`
tracks the pre-filter page length. -/
theorem c1_counterexample :
    backupPage.length = 20 ∧ hasNextPage backupPage = false := by decide

/-- C1 — amended: `hasNextPage` is true iff the length of the page after
the BACKUP_OPERATION filter equals the page size 20 (the code computes it
from the filtered list, not the raw API page). -/
theorem c1_hasNextPage_postfilter (data : List Activity) :
    hasNextPage data = true ↔
      (filteredActivities data).length = ITEMS_PER_PAGE := by
  simp [hasNextPage]

/-- Witness for C1's amended theorem at a concrete full page. -/
theorem c1_witness : hasNextPage fullPage = true :=
  (c1_hasNextPage_postfilter fullPage).mpr (by decide)

/-- C2 — counterexample: a PLAYER_SURGE activity whose metadata lacks the
player counts yields "undefined → undefined players" and badge "+NaN", not
counts defaulted to 0. -/
theorem c2_counterexample :
    (getActivityDetails surgeNoCounts).summary =
        "undefined → undefined players" ∧
    (getActivityDetails surgeNoCounts).badge = some "+NaN" ∧
    (getActivityDetails surgeNoCounts).summary ≠ "0 → 0 players" ∧
    (getActivityDetails surgeNoCounts).badge ≠ some "+0" := by decide

/-- C2 — amended: absent fields are defaulted only where the code applies a
fallback (scaling server counts to 0, restart reason to "Manual restart",
time window to "5m"); the presenter is total, but absent player counts in
PLAYER_SURGE are not defaulted: they surface as "undefined" in the summary
and "NaN" in the badge. -/
theorem c2_defaults_amended :
    getActivityDetails (mkActivity "SCALING_OPERATION" (some {})) =
      { summary := "0 → 0 servers", details := "Auto-scaling triggered",
        badge := some "-0" } ∧
    getActivityDetails (mkActivity "SERVER_RESTART" (some {})) =
      { summary := "Manual restart", details := "", badge := some "RESTART" } ∧
    getActivityDetails (mkActivity "PLAYER_SURGE"
        (some { previousPlayerCount := .num 10, newPlayerCount := .num 25 })) =
      { summary := "10 → 25 players", details := "Surge detected in 5m",
        badge := some "+15" } ∧
    (getActivityDetails surgeNoCounts).summary =
        "undefined → undefined players" ∧
    (getActivityDetails surgeNoCounts).badge = some "+NaN" := by decide

/-- C3 — counterexample: a timestamp that carries explicit time-zone
information as a numeric offset (and no "Z") is altered before parsing:
the code appends "Z" to it. -/
theorem c3_counterexample :
    specCarriesExplicitTimezone "2025-06-01T12:00:00+05:00" = true ∧
    formatTimeAgoInput "2025-06-01T12:00:00+05:00" ≠
      "2025-06-01T12:00:00+05:00" := by decide

/-- C3 — amended: the timestamp is passed to the parser unaltered exactly
when it contains the character "Z"; any other timestamp, offset-bearing or
not, gets "Z" appended. -/
theorem c3_utc_marker_is_char_Z (t : String) :
    (t.data.contains 'Z' = true → formatTimeAgoInput t = t) ∧
    (t.data.contains 'Z' = false → formatTimeAgoInput t ≠ t) := by
  constructor
  · intro h
    rw [formatTimeAgoInput, if_pos h]
    simp
  · intro h heq
    have hlen := congrArg String.length heq
    rw [formatTimeAgoInput, if_neg (by rw [h]; simp),
      String.length_append] at hlen
    have hone : ("Z" : String).length = 1 := rfl
    omega

/-- Witness for C3's amended theorem at concrete timestamps. -/
theorem c3_witness :
    formatTimeAgoInput "2025-06-01T12:00:00Z" = "2025-06-01T12:00:00Z" ∧
    formatTimeAgoInput "2025-06-01T12:00:00" ≠ "2025-06-01T12:00:00" :=
  ⟨(c3_utc_marker_is_char_Z "2025-06-01T12:00:00Z").1 (by decide),
   (c3_utc_marker_is_char_Z "2025-06-01T12:00:00").2 (by decide)⟩

/-- C5: `formatTriggerReason` leaves no underscore in the intermediate
formatted string (every underscore becomes a space), and on the three spec
inputs produces exactly the specified outputs, the third exercising the
capitalization of every word with no override applying. -/
theorem c5_formatTriggerReason_spec :
    (∀ r : String,
      ((underscoresToSpaces r).data.all (fun c => c != '_')) = true) ∧
    formatTriggerReason "scale_up_threshold" = "High utilization" ∧
    formatTriggerReason "" = "" ∧
    formatTriggerReason "custom_reason" = "Custom Reason" := by
  refine ⟨?_, by decide, by decide, by decide⟩
  intro r
  rw [List.all_eq_true]
  intro c hc
  have hc2 : c ∈ r.data.map (fun c => if c = '_' then ' ' else c) := hc
  obtain ⟨c0, _, rfl⟩ := List.mem_map.mp hc2
  by_cases h : c0 = '_' <;> simp [h]

/-- C7: any exception raised inside the `try` block of the presenter is
caught and mapped to all-empty string fields; the presenter itself is a
total function and never propagates the error. -/
theorem c7_catch_yields_empty (act : Activity) (md : Metadata) (e : String)
    (hmd : act.metadata = some md)
    (herr : getActivityDetailsBody act.activityType md = .error e) :
    getActivityDetails act =
      { summary := "", details := "", badge := some "" } := by
  simp [getActivityDetails, hmd, herr]

/-- Witness for C7: the throwing scaling activity really errors inside the
body, and the presenter returns the all-empty record for it. -/
theorem c7_witness :
    getActivityDetailsBody throwingScaling.activityType
        { trigger_reason := .num 42 } =
      .error "TypeError: reason.replace is not a function" ∧
    getActivityDetails throwingScaling =
      { summary := "", details := "", badge := some "" } :=
  ⟨rfl, c7_catch_yields_empty throwingScaling { trigger_reason := .num 42 }
    "TypeError: reason.replace is not a function" rfl rfl⟩

/-- C8: every entry of the filtered activity list has an activity type
other than BACKUP_OPERATION, for every fetched page. -/
theorem c8_no_backup_rendered (data : List Activity) :
    (filteredActivities data).all
      (fun a => a.activityType != "BACKUP_OPERATION") = true := by
  rw [List.all_eq_true]
  intro a ha
  exact (List.mem_filter.mp ha).2

/-- C9: once loading has finished, an empty filtered list renders the
zero-results message and no pagination controls, even on a page whose
`hasPrevPage` is true. -/
theorem c9_empty_page_hides_pagination (data : List Activity)
    (currentPage : Nat) (hempty : filteredActivities data = [])
    (hpage : 1 < currentPage) :
    renderState false (filteredActivities data) = RenderState.emptyMessage ∧
    showsPaginationControls false (filteredActivities data) = false ∧
    hasPrevPage currentPage = true := by
  refine ⟨?_, ?_, ?_⟩
  · simp [renderState, hempty]
  · simp [showsPaginationControls, hempty]
  · simp [hasPrevPage, hpage]

/-- Capitalizing never empties a nonempty character list. -/
theorem capitalizeWordsAux_ne_nil (b : Bool) (l : List Char) (h : l ≠ []) :
    capitalizeWordsAux b l ≠ [] := by
  cases l with
  | nil => exact absurd rfl h
  | cons c cs => simp [capitalizeWordsAux]

/-- Replacing the first occurrence with a nonempty replacement never
empties a nonempty character list. -/
theorem replaceFirstAux_ne_nil (pat repl l : List Char)
    (hrepl : repl ≠ []) (hl : l ≠ []) : replaceFirstAux pat repl l ≠ [] := by
  cases l with
  | nil => exact absurd rfl hl
  | cons c cs =>
    rw [replaceFirstAux]
    split
    · simp [hrepl]
    · simp

/-- String-level statement of `replaceFirstAux_ne_nil`. -/
theorem replaceFirst_ne_empty (s pat repl : String) (hs : s ≠ "")
    (hrepl : repl ≠ "") : replaceFirst s pat repl ≠ "" := by
  rw [replaceFirst]
  split
  · rw [str_ne_empty_iff_data, String.data_append]
    simp [(str_ne_empty_iff_data repl).mp hrepl]
  · rw [str_ne_empty_iff_data]
    exact replaceFirstAux_ne_nil _ _ _
      ((str_ne_empty_iff_data repl).mp hrepl)
      ((str_ne_empty_iff_data s).mp hs)

/-- A nonempty trigger reason formats to a nonempty string (so the
`|| "Auto-scaling triggered"` fallback fires exactly for the empty
reason). -/
theorem formatTriggerReason_ne_empty (r : String) (h : r ≠ "") :
    formatTriggerReason r ≠ "" := by
  rw [formatTriggerReason, if_neg h]
  have h1 : underscoresToSpaces r ≠ "" := by
    rw [str_ne_empty_iff_data]
    exact fun he =>
      (str_ne_empty_iff_data r).mp h (List.map_eq_nil_iff.mp he)
  have h2 : capitalizeWords (underscoresToSpaces r) ≠ "" := by
    rw [str_ne_empty_iff_data]
    exact fun he => capitalizeWordsAux_ne_nil false _
      ((str_ne_empty_iff_data _).mp h1) he
  exact replaceFirst_ne_empty _ _ _
    (replaceFirst_ne_empty _ _ _
      (replaceFirst_ne_empty _ _ _
        (replaceFirst_ne_empty _ _ _ h2 (by decide)) (by decide))
      (by decide)) (by decide)

/-- The scaling branch of the presenter body on explicit numeric counts, a
string direction and a string trigger reason. -/
theorem body_scaling_eq (b a : Int) (dir tr : String) :
    getActivityDetailsBody "SCALING_OPERATION"
      { servers_before := .num b, servers_after := .num a,
        direction := .str dir, trigger_reason := .str tr } =
    .ok { summary := toString b ++ " → " ++ toString a ++ " servers",
          details := if tr = "" then "Auto-scaling triggered"
            else formatTriggerReason tr,
          badge := some ((if dir = "up" then "+" else "-") ++
            toString |a - b|) } := by
  rw [getActivityDetailsBody, if_pos rfl]
  simp only [jsOr_num_zero, formatTriggerReasonJS_str]
  by_cases htr : tr = ""
  · subst htr
    simp [formatTriggerReason, jsSub, JSVal.toNumber, JSNum.abs,
      JSVal.toJSString, JSNum.toJSString, JSVal.str.injEq]
  · simp [htr, formatTriggerReason_ne_empty tr htr, jsSub, JSVal.toNumber,
      JSNum.abs, JSVal.toJSString, JSNum.toJSString, JSVal.str.injEq]

/-- The scaling branch of the presenter body when the direction is any
value other than the string "up". -/
theorem body_scaling_badge (b a : Int) (dir : JSVal) (tr : String)
    (hdir : dir ≠ .str "up") :
    getActivityDetailsBody "SCALING_OPERATION"
      { servers_before := .num b, servers_after := .num a,
        direction := dir, trigger_reason := .str tr } =
    .ok { summary := toString b ++ " → " ++ toString a ++ " servers",
          details := if tr = "" then "Auto-scaling triggered"
            else formatTriggerReason tr,
          badge := some ("-" ++ toString |a - b|) } := by
  rw [getActivityDetailsBody, if_pos rfl]
  simp only [jsOr_num_zero, formatTriggerReasonJS_str]
  by_cases htr : tr = ""
  · subst htr
    simp [formatTriggerReason, hdir, jsSub, JSVal.toNumber, JSNum.abs,
      JSVal.toJSString, JSNum.toJSString]
  · simp [htr, formatTriggerReason_ne_empty tr htr, hdir, jsSub,
      JSVal.toNumber, JSNum.abs, JSVal.toJSString, JSNum.toJSString]

/-- C6: the presenter maps a SCALING_OPERATION activity with numeric
before/after counts to summary "b → a servers", details the formatted
trigger reason with the "Auto-scaling triggered" fallback for an empty
reason, and badge the direction-determined sign followed by |a - b|. -/
theorem c6_scaling_presenter (act : Activity) (b a : Int) (dir tr : String)
    (hty : act.activityType = "SCALING_OPERATION")
    (hmd : act.metadata = some
      { servers_before := .num b, servers_after := .num a,
        direction := .str dir, trigger_reason := .str tr }) :
    getActivityDetails act =
      { summary := toString b ++ " → " ++ toString a ++ " servers",
        details := if tr = "" then "Auto-scaling triggered"
          else formatTriggerReason tr,
        badge := some ((if dir = "up" then "+" else "-") ++
          toString |a - b|) } := by
  rw [getActivityDetails, hmd, hty]
  simp only [body_scaling_eq]

/-- Witness for C6 at the spec's example: counts 3 and 5, direction "up". -/
theorem c6_witness :
    getActivityDetails (mkActivity "SCALING_OPERATION"
      (some { servers_before := .num 3, servers_after := .num 5,
              direction := .str "up", trigger_reason := .str "" })) =
      { summary := "3 → 5 servers", details := "Auto-scaling triggered",
        badge := some "+2" } :=
  (c6_scaling_presenter _ 3 5 "up" "" rfl rfl).trans (by decide)

/-- C10: whenever `metadata.direction` is any value other than the string
"up" — absent, "down", or anything else — the scaling badge sign is "-",
regardless of the sign of after - before. -/
theorem c10_sign_from_direction (act : Activity) (b a : Int) (dir : JSVal)
    (tr : String) (hty : act.activityType = "SCALING_OPERATION")
    (hmd : act.metadata = some
      { servers_before := .num b, servers_after := .num a,
        direction := dir, trigger_reason := .str tr })
    (hdir : dir ≠ .str "up") :
    (getActivityDetails act).badge =
      some ("-" ++ toString |a - b|) := by
  rw [getActivityDetails, hmd, hty]
  simp only [body_scaling_badge b a dir tr hdir]

/-- Witness for C10: direction absent while the server count grows from 3
to 5 still yields a "-" sign. -/
theorem c10_witness :
    (getActivityDetails (mkActivity "SCALING_OPERATION"
      (some { servers_before := .num 3, servers_after := .num 5,
              direction := .undefined, trigger_reason := .str "" }))).badge =
      some "-2" :=
  (c10_sign_from_direction _ 3 5 .undefined "" rfl rfl (by decide)).trans
    (by decide)

/-- C4: for an elapsed time of `s` whole seconds, the relative-age label is
"now" below one minute, then minutes, hours and days, each by truncating
division, matching the spec's tier table. -/
theorem c4_formatTimeAgo_tiers (s : Nat) :
    formatTimeAgoOfDiff (1000 * (s : Int)) =
      (if s < 60 then "now"
       else if s < 3600 then toString (s / 60) ++ "m"
       else if s < 86400 then toString (s / 3600) ++ "h"
       else toString (s / 86400) ++ "d") := by
  simp only [formatTimeAgoOfDiff, fdiv_ms_minute, fdiv_minute_hour,
    fdiv_hour_day]
  by_cases h1 : s < 60
  · rw [if_pos (show ((s / 60 : Nat) : Int) < 1 by omega), if_pos h1]
  · rw [if_neg (show ¬ ((s / 60 : Nat) : Int) < 1 by omega), if_neg h1]
    by_cases h2 : s < 3600
    · rw [if_pos (show ((s / 60 : Nat) : Int) < 60 by omega), if_pos h2,
        toString_natCast]
    · rw [if_neg (show ¬ ((s / 60 : Nat) : Int) < 60 by omega), if_neg h2]
      by_cases h3 : s < 86400
      · rw [if_pos (show ((s / 3600 : Nat) : Int) < 24 by omega), if_pos h3,
          toString_natCast]
      · rw [if_neg (show ¬ ((s / 3600 : Nat) : Int) < 24 by omega),
          if_neg h3, toString_natCast]

/-- Witness for C9: a page-2 fetch consisting only of a backup operation
filters to empty and hides pagination. -/
theorem c9_witness :
    renderState false (filteredActivities [mkActivity "BACKUP_OPERATION" none]) =
      RenderState.emptyMessage ∧
    showsPaginationControls false
      (filteredActivities [mkActivity "BACKUP_OPERATION" none]) = false ∧
    hasPrevPage 2 = true :=
  c9_empty_page_hides_pagination [mkActivity "BACKUP_OPERATION" none] 2
    (by decide) (by decide)

end AtlasWeb
